import Mathlib

/-!
Shallow embedding of the DuckDB Arrow Flight server (`src/server.py`) from
soumilshah1995/arrow-flight-servwer-duckdb-s3tables.

The server's external collaborators (the `json` module, the DuckDB engine,
the Flight transport) are modelled as oracles bundled in `PyEnv`; server
state (the `self.db_connections` registry plus a fresh-handle counter for
`duckdb.connect`) is threaded explicitly.  Each method of
`DuckDBFlightServer` becomes a Lean function over that state.
-/

namespace FlightServer

/-- The parsed JSON payload of a descriptor / ticket / action body, restricted
to the three keys the server ever reads via `dict.get`: `query`,
`catalog_arn`, `client_id`.  A missing key is `none` (Python `dict.get`
returns `None`).  Per the wire format all values are strings. -/
structure Payload where
  query : Option String
  catalog_arn : Option String
  client_id : Option String
deriving DecidableEq, Repr

/-- External collaborators as oracles.
* `jsonLoads` models `json.loads(bytes.decode('utf-8'))` (plus treating a
  non-object payload as a decode failure, since `.get` would raise on it):
  either an exception message or the parsed payload.
* `connectSetup n` models the one-time setup run on the n-th freshly created
  connection inside `_get_connection` (INSTALL/LOAD of the aws, httpfs,
  iceberg, parquet extensions, `CALL load_aws_credentials()`, `CREATE
  SECRET`): `none` if every step succeeds, `some msg` if some step raises.
* `attach conn arn` models `conn.execute("ATTACH '<arn>' AS s3_tables_db
  (TYPE iceberg, ENDPOINT_TYPE s3_tables)")`: `none` = success, `some msg` =
  the raised error's message.
* `exec conn q` models `conn.execute(q).fetch_arrow_table()`: the resulting
  Arrow table (abstracted to an identifier) or the raised error's message.
* `close conn` models `conn.close()`: `none` = success, `some msg` = raises. -/
structure PyEnv where
  jsonLoads : List Nat → Except String Payload
  connectSetup : Nat → Option String
  attach : Nat → String → Option String
  exec : Nat → String → Except String Nat
  close : Nat → Option String

/-- Server state: the `self.db_connections` dict (client_id ↦ engine handle,
as an association list with unique keys) and a counter allocating fresh
handle identifiers for `duckdb.connect(':memory:')`. -/
structure ServerState where
  db_connections : List (String × Nat)
  nextConn : Nat
deriving DecidableEq, Repr

/-- Python `client_id in self.db_connections` / `self.db_connections[client_id]`. -/
def lookupConn : List (String × Nat) → String → Option Nat
  | [], _ => none
  | (k, v) :: rest, cid => if k = cid then some v else lookupConn rest cid

/-- Python `del self.db_connections[client_id]` (keys are unique). -/
def removeKey : List (String × Nat) → String → List (String × Nat)
  | [], _ => []
  | (k, v) :: rest, cid =>
    if k = cid then removeKey rest cid else (k, v) :: removeKey rest cid

/-- Python truthiness of `dict.get(key)` for a string-valued key:
`None` and `""` are falsy. -/
def truthy : Option String → Bool
  | none => false
  | some s => !(s = "")

/-- List-of-chars version of Python `needle in hay`: does `hay` start with
`needle`? -/
def charsLeadWith : List Char → List Char → Bool
  | [], _ => true
  | _ :: _, [] => false
  | a :: as, b :: bs => a = b && charsLeadWith as bs

/-- Does `needle` occur as a contiguous run inside `hay`? -/
def charsContain (needle : List Char) : List Char → Bool
  | [] => charsLeadWith needle []
  | b :: bs => charsLeadWith needle (b :: bs) || charsContain needle bs

/-- Python `needle in hay` on strings (substring test), as used by
`if "already exists" not in str(e)`. -/
def strContains (hay needle : String) : Bool :=
  charsContain needle.toList hay.toList

/-- `DuckDBFlightServer._get_connection` (`src/server.py:21-46`): under the
lock, return the registered connection for `client_id` if present; otherwise
create a fresh handle, run the one-time setup, and register it.  If setup
raises, the exception propagates and the registration line never runs (the
fresh handle is leaked, modelled by the bumped `nextConn`). -/
def _get_connection (env : PyEnv) (st : ServerState) (client_id : String) :
    Except String Nat × ServerState :=
  match lookupConn st.db_connections client_id with
  | some conn => (.ok conn, st)
  | none =>
    match env.connectSetup st.nextConn with
    | some e => (.error e, { st with nextConn := st.nextConn + 1 })
    | none =>
      (.ok st.nextConn,
       { db_connections := (client_id, st.nextConn) :: st.db_connections,
         nextConn := st.nextConn + 1 })

/-- One Flight endpoint: ticket bytes plus locations. -/
structure FlightEndpoint where
  ticket : List Nat
  locations : List String
deriving DecidableEq, Repr

/-- The `flight.FlightInfo` the server builds: schema as (name, type) pairs,
descriptor command bytes, endpoints, and the record/byte counts. -/
structure FlightInfo where
  schema : List (String × String)
  descriptor : List Nat
  endpoints : List FlightEndpoint
  total_records : Int
  total_bytes : Int
deriving DecidableEq, Repr

/-- `DuckDBFlightServer.get_flight_info` (`src/server.py:52-83`): decode the
descriptor command bytes, validate `query` and `catalog_arn`, and on success
return the fixed placeholder schema and a single endpoint whose ticket is
the descriptor's command bytes.  Any exception is re-raised as a
protocol-level `FlightServerError` (the `Except.error` case).  The method
never touches `self.db_connections`, so the state is returned unchanged. -/
def get_flight_info (env : PyEnv) (location : String) (st : ServerState)
    (command : List Nat) : Except String FlightInfo × ServerState :=
  match env.jsonLoads command with
  | .error e => (.error ("Failed to process query request: " ++ e), st)
  | .ok query_info =>
    if !truthy query_info.query || !truthy query_info.catalog_arn then
      (.error ("Failed to process query request: " ++
               "Missing required parameters: query and catalog_arn"), st)
    else
      (.ok { schema := [("query_id", "string"), ("status", "string")],
             descriptor := command,
             endpoints := [{ ticket := command, locations := [location] }],
             total_records := -1,
             total_bytes := -1 }, st)

/-- Observable engine/log events of one `do_get` call, used to state when the
catalog attachment is attempted, when the non-"already exists" warning is
logged, and when query execution is reached. -/
inductive Event where
  | attachAttempt (conn : Nat) (catalog_arn : String)
  | warnAttach (msg : String)
  | execAttempt (conn : Nat) (query : String)
deriving DecidableEq, Repr

/-- What `do_get` streams back: either the Arrow table of a successful query
(`RecordBatchStream(result)`) or the single-row error table built by
`pa.Table.from_pydict({"error": [...], "details": [...]})`. -/
inductive PyTable where
  | fromQuery (result : Nat)
  | fromPydict (error : String) (details : String)
deriving DecidableEq, Repr

/-- The `try:` body of `DuckDBFlightServer.do_get` (`src/server.py:87-123`):
decode the ticket, validate, resolve the session, attempt the catalog
attachment (any attachment exception is caught by the inner handler: an
"already exists" failure is ignored, any other failure only logs a warning),
then execute the query.  `Except.error` is a raised exception reaching the
outer handler. -/
def do_get_core (env : PyEnv) (st : ServerState) (ticket : List Nat) :
    Except String Nat × ServerState × List Event :=
  match env.jsonLoads ticket with
  | .error e => (.error e, st, [])
  | .ok query_info =>
    let query := query_info.query
    let catalog_arn := query_info.catalog_arn
    let client_id := query_info.client_id.getD "default"
    if !truthy query || !truthy catalog_arn then
      (.error "Missing required parameters: query and catalog_arn", st, [])
    else
      match _get_connection env st client_id with
      | (.error e, st1) => (.error e, st1, [])
      | (.ok conn, st1) =>
        let arn := catalog_arn.getD ""
        let q := query.getD ""
        let attachEvents :=
          match env.attach conn arn with
          | none => [Event.attachAttempt conn arn]
          | some e =>
            if strContains e "already exists" then
              [Event.attachAttempt conn arn]
            else
              [Event.attachAttempt conn arn,
               Event.warnAttach ("Note about catalog attachment: " ++ e)]
        let events := attachEvents ++ [Event.execAttempt conn q]
        match env.exec conn q with
        | .error e => (.error e, st1, events)
        | .ok result => (.ok result, st1, events)

/-- `DuckDBFlightServer.do_get` (`src/server.py:85-135`): run the body; any
exception is caught and converted into the single-row error table
`{"error": [str(e)], "details": ["Query execution failed"]}`, returned as a
successful stream.  The method itself never raises, hence the total return
type. -/
def do_get (env : PyEnv) (st : ServerState) (ticket : List Nat) :
    PyTable × ServerState × List Event :=
  match do_get_core env st ticket with
  | (.ok result, st1, events) => (.fromQuery result, st1, events)
  | (.error e, st1, events) =>
    (.fromPydict e "Query execution failed", st1, events)

/-- `DuckDBFlightServer.do_action` (`src/server.py:137-155`): only
`close_connection` is recognised.  Its body is decoded; under the lock, if
the client has a registered connection it is closed and then deleted; the
fixed `b"Connection closed"` result is returned whether or not an entry
existed.  Any exception (decode failure, or `close()` raising — in which
case the `del` never runs) yields an `"Error: ..."` result, never a
transport failure.  Unknown action types yield `b"Unknown action"`. -/
def do_action (env : PyEnv) (st : ServerState) (action_type : String)
    (body : List Nat) : List String × ServerState :=
  if action_type = "close_connection" then
    match env.jsonLoads body with
    | .error e => (["Error: " ++ e], st)
    | .ok action_data =>
      let client_id := action_data.client_id.getD "default"
      match lookupConn st.db_connections client_id with
      | none => (["Connection closed"], st)
      | some conn =>
        match env.close conn with
        | some e => (["Error: " ++ e], st)
        | none =>
          (["Connection closed"],
           { st with db_connections := removeKey st.db_connections client_id })
  else
    (["Unknown action"], st)

/-- A well-formed request payload used for concrete evaluations. -/
def qiOk : Payload := { query := some "SELECT 1", catalog_arn := some "cat", client_id := some "c1" }

/-- A concrete environment: bytes `[1]` decode to `qiOk`, everything else is a
JSON decode failure; all engine operations succeed. -/
def envA : PyEnv where
  jsonLoads := fun b => if b = [1] then .ok qiOk else .error "Expecting value"
  connectSetup := fun _ => none
  attach := fun _ _ => none
  exec := fun _ _ => .ok 0
  close := fun _ => none

/-- The empty server state (registry empty, first handle will be 0). -/
def st0 : ServerState := { db_connections := [], nextConn := 0 }

/-- Like `envA` but the catalog attachment always fails with an error whose
message does not mention "already exists". -/
def envW : PyEnv := { envA with attach := fun _ _ => some "Network unreachable" }

/-- Like `envA` but closing a connection always raises. -/
def envBadClose : PyEnv := { envA with close := fun _ => some "handle busy" }

/-- A state in which client "c1" already owns connection 0. -/
def stC1 : ServerState := { db_connections := [("c1", 0)], nextConn := 1 }

/-- C9: `get_flight_info` neither reads nor modifies the session registry:
for every environment, location, server state and descriptor, the state
after the call is exactly the state before it, so no session is created,
looked up or removed at GetFlightInfo time (sessions arise only in
`_get_connection`, reached from `do_get`). -/
theorem C9_get_flight_info_frame (env : PyEnv) (location : String)
    (st : ServerState) (command : List Nat) :
    (get_flight_info env location st command).2 = st := by
  unfold get_flight_info
  cases env.jsonLoads command with
  | error e => rfl
  | ok qi =>
    dsimp only
    split <;> rfl

/-- C2: for every descriptor whose payload decodes with non-empty `query`
and `catalog_arn`, `get_flight_info` succeeds and the single returned
endpoint's ticket bytes are byte-for-byte the inbound command bytes. -/
theorem C2_ticket_roundtrip (env : PyEnv) (location : String)
    (st : ServerState) (command : List Nat) (qi : Payload)
    (h1 : env.jsonLoads command = .ok qi)
    (h2 : truthy qi.query = true)
    (h3 : truthy qi.catalog_arn = true) :
    ∃ fi, get_flight_info env location st command = (.ok fi, st) ∧
      ∃ ep, fi.endpoints = [ep] ∧ ep.ticket = command := by
  unfold get_flight_info
  rw [h1]
  simp [h2, h3]

/-- C2 witness: the concrete valid request `qiOk` carried by bytes `[1]`. -/
theorem C2_ticket_roundtrip_witness :
    ∃ fi, get_flight_info envA "grpc://0.0.0.0:8815" st0 [1] = (.ok fi, st0) ∧
      ∃ ep, fi.endpoints = [ep] ∧ ep.ticket = [1] :=
  C2_ticket_roundtrip envA "grpc://0.0.0.0:8815" st0 [1] qiOk (by rfl)
    (by decide) (by decide)

/-- C8: for every valid descriptor, `get_flight_info` returns the fixed
placeholder schema of two string fields `query_id` and `status`, exactly one
endpoint, and `total_records = -1`, `total_bytes = -1`. -/
theorem C8_placeholder_info (env : PyEnv) (location : String)
    (st : ServerState) (command : List Nat) (qi : Payload)
    (h1 : env.jsonLoads command = .ok qi)
    (h2 : truthy qi.query = true)
    (h3 : truthy qi.catalog_arn = true) :
    ∃ fi, get_flight_info env location st command = (.ok fi, st) ∧
      fi.schema = [("query_id", "string"), ("status", "string")] ∧
      fi.endpoints.length = 1 ∧
      fi.total_records = -1 ∧ fi.total_bytes = -1 := by
  unfold get_flight_info
  rw [h1]
  simp [h2, h3]

/-- C8 witness: the same concrete valid request. -/
theorem C8_placeholder_info_witness :
    ∃ fi, get_flight_info envA "grpc://0.0.0.0:8815" st0 [1] = (.ok fi, st0) ∧
      fi.schema = [("query_id", "string"), ("status", "string")] ∧
      fi.endpoints.length = 1 ∧
      fi.total_records = -1 ∧ fi.total_bytes = -1 :=
  C8_placeholder_info envA "grpc://0.0.0.0:8815" st0 [1] qiOk (by rfl)
    (by decide) (by decide)

/-- C3: for every descriptor whose payload fails to decode or has a missing
or empty `query` or `catalog_arn`, `get_flight_info` fails with a
protocol-level error (no `FlightInfo`, hence no ticket, is produced) and the
server state — in particular the session registry — is unchanged. -/
theorem C3_invalid_rejected (env : PyEnv) (location : String)
    (st : ServerState) (command : List Nat)
    (h : (∃ e, env.jsonLoads command = .error e) ∨
         (∃ qi, env.jsonLoads command = .ok qi ∧
            (!truthy qi.query || !truthy qi.catalog_arn) = true)) :
    (∃ msg, (get_flight_info env location st command).1 = .error msg) ∧
    (get_flight_info env location st command).2 = st := by
  rcases h with ⟨e, he⟩ | ⟨qi, hq, hv⟩
  · constructor
    · exact ⟨"Failed to process query request: " ++ e,
        by simp [get_flight_info, he]⟩
    · simp [get_flight_info, he]
  · constructor
    · exact ⟨"Failed to process query request: " ++
          "Missing required parameters: query and catalog_arn",
        by simp [get_flight_info, hq, hv]⟩
    · simp [get_flight_info, hq, hv]

/-- C3 witness: bytes `[9]` fail to decode under `envA`. -/
theorem C3_invalid_rejected_witness :
    (∃ msg, (get_flight_info envA "grpc://0.0.0.0:8815" st0 [9]).1 = .error msg) ∧
    (get_flight_info envA "grpc://0.0.0.0:8815" st0 [9]).2 = st0 :=
  C3_invalid_rejected envA "grpc://0.0.0.0:8815" st0 [9]
    (Or.inl ⟨"Expecting value", by rfl⟩)

/-- C5: session resolution is idempotent.  First conjunct: when `client_id`
is absent and setup succeeds, `_get_connection` creates and registers a
fresh session.  Second conjunct: whenever `_get_connection` returns a
handle, resolving again from the resulting state returns the same handle
with the state unchanged — no new session is created. -/
theorem C5_resolve_idempotent (env : PyEnv) (st : ServerState) (cid : String) :
    (lookupConn st.db_connections cid = none →
      env.connectSetup st.nextConn = none →
      _get_connection env st cid =
        (.ok st.nextConn,
         { db_connections := (cid, st.nextConn) :: st.db_connections,
           nextConn := st.nextConn + 1 })) ∧
    (∀ conn st', _get_connection env st cid = (.ok conn, st') →
      _get_connection env st' cid = (.ok conn, st')) := by
  constructor
  · intro h1 h2
    simp [_get_connection, h1, h2]
  · intro conn st' h
    unfold _get_connection at h
    cases hl : lookupConn st.db_connections cid with
    | some c =>
      rw [hl] at h
      simp only [Prod.mk.injEq, Except.ok.injEq] at h
      obtain ⟨hc, hst⟩ := h
      subst hc; subst hst
      simp [_get_connection, hl]
    | none =>
      rw [hl] at h
      cases hs : env.connectSetup st.nextConn with
      | some e => rw [hs] at h; simp at h
      | none =>
        rw [hs] at h
        simp only [Prod.mk.injEq, Except.ok.injEq] at h
        obtain ⟨hc, hst⟩ := h
        subst hc; subst hst
        simp [_get_connection, lookupConn]

/-- C5 witness: a fresh client under `envA`, then resolving again. -/
theorem C5_resolve_idempotent_witness :
    _get_connection envA st0 "c1" =
      (.ok 0, { db_connections := [("c1", 0)], nextConn := 1 }) ∧
    _get_connection envA { db_connections := [("c1", 0)], nextConn := 1 } "c1" =
      (.ok 0, { db_connections := [("c1", 0)], nextConn := 1 }) :=
  ⟨(C5_resolve_idempotent envA st0 "c1").1 (by rfl) (by rfl),
   (C5_resolve_idempotent envA st0 "c1").2 0
     { db_connections := [("c1", 0)], nextConn := 1 }
     ((C5_resolve_idempotent envA st0 "c1").1 (by rfl) (by rfl))⟩

/-- C6: if the one-time setup of a fresh session fails, the error propagates
out of `_get_connection` and the session registry is unchanged — no entry
for that `client_id` is left behind (only the leaked raw handle counter
advances). -/
theorem C6_setup_failure_atomic (env : PyEnv) (st : ServerState)
    (cid : String) (e : String)
    (h1 : lookupConn st.db_connections cid = none)
    (h2 : env.connectSetup st.nextConn = some e) :
    _get_connection env st cid =
      (.error e, { st with nextConn := st.nextConn + 1 }) ∧
    ((_get_connection env st cid).2).db_connections = st.db_connections ∧
    lookupConn ((_get_connection env st cid).2).db_connections cid = none := by
  refine ⟨?_, ?_, ?_⟩ <;> simp [_get_connection, h1, h2]

/-- C6 witness: an environment whose setup always raises. -/
theorem C6_setup_failure_atomic_witness :
    _get_connection
        { envA with connectSetup := fun _ => some "HTTP Error" } st0 "c1" =
      (.error "HTTP Error", { db_connections := [], nextConn := 1 }) ∧
    ((_get_connection { envA with connectSetup := fun _ => some "HTTP Error" }
        st0 "c1").2).db_connections = st0.db_connections ∧
    lookupConn ((_get_connection
        { envA with connectSetup := fun _ => some "HTTP Error" }
        st0 "c1").2).db_connections "c1" = none :=
  C6_setup_failure_atomic { envA with connectSetup := fun _ => some "HTTP Error" }
    st0 "c1" "HTTP Error" (by rfl) (by rfl)

/-- C1 counterexample: at the concrete failing ticket `[9]` (a decode
failure) the error envelope's `details` column holds the string
"Query execution failed" — capital Q — and not the string
"query execution failed" that the claim quotes. -/
theorem C1_error_envelope_counterexample :
    (do_get envA st0 [9]).1 =
      PyTable.fromPydict "Expecting value" "Query execution failed" ∧
    (do_get envA st0 [9]).1 ≠
      PyTable.fromPydict "Expecting value" "query execution failed" := by
  constructor <;> decide

/-- C1 (amended): every failure during ticket redemption — decoding the
ticket bytes, the missing-field validation, resolving the session, or
executing the query — is converted into the single-row error table whose
`error` column holds the failure message and whose `details` column holds
the fixed string "Query execution failed"; and `do_get` always returns a
stream (either a query-result table or such an envelope), never a
protocol-level failure. -/
theorem C1_error_envelope (env : PyEnv) (st : ServerState)
    (ticket : List Nat) :
    (∀ e, env.jsonLoads ticket = .error e →
       (do_get env st ticket).1 = .fromPydict e "Query execution failed") ∧
    (∀ qi, env.jsonLoads ticket = .ok qi →
       (!truthy qi.query || !truthy qi.catalog_arn) = true →
       (do_get env st ticket).1 =
         .fromPydict "Missing required parameters: query and catalog_arn"
           "Query execution failed") ∧
    (∀ qi e st1, env.jsonLoads ticket = .ok qi →
       (!truthy qi.query || !truthy qi.catalog_arn) = false →
       _get_connection env st (qi.client_id.getD "default") = (.error e, st1) →
       (do_get env st ticket).1 = .fromPydict e "Query execution failed") ∧
    (∀ qi conn st1 e, env.jsonLoads ticket = .ok qi →
       (!truthy qi.query || !truthy qi.catalog_arn) = false →
       _get_connection env st (qi.client_id.getD "default") = (.ok conn, st1) →
       env.exec conn (qi.query.getD "") = .error e →
       (do_get env st ticket).1 = .fromPydict e "Query execution failed") ∧
    ((∃ r, (do_get env st ticket).1 = .fromQuery r) ∨
     (∃ e, (do_get env st ticket).1 =
        .fromPydict e "Query execution failed")) := by
  refine ⟨?_, ?_, ?_, ?_, ?_⟩
  · intro e he
    simp [do_get, do_get_core, he]
  · intro qi hq hv
    simp [do_get, do_get_core, hq, hv]
  · intro qi e st1 hq hv hc
    simp [do_get, do_get_core, hq, hv, hc]
  · intro qi conn st1 e hq hv hc hx
    simp [do_get, do_get_core, hq, hv, hc, hx]
  · rcases hc : do_get_core env st ticket with ⟨res, st1, ev⟩
    cases res with
    | error e =>
      right
      exact ⟨e, by simp [do_get, hc]⟩
    | ok r =>
      left
      exact ⟨r, by simp [do_get, hc]⟩

/-- C1 witness: the decode-failure case at the concrete ticket `[9]`. -/
theorem C1_error_envelope_witness :
    (do_get envA st0 [9]).1 =
      PyTable.fromPydict "Expecting value" "Query execution failed" :=
  (C1_error_envelope envA st0 [9]).1 "Expecting value" (by rfl)

/-- C4: for every ticket that decodes, validates and resolves a session,
the catalog attachment is attempted unconditionally; a failure whose
message contains "already exists" is swallowed with no warning; any other
failure logs a warning; in either case execution is still attempted, and
the call's outcome is decided solely by the execution step: a result table
on success, the error envelope carrying exactly the execution error
otherwise. -/
theorem C4_attach_policy (env : PyEnv) (st : ServerState) (ticket : List Nat)
    (qi : Payload) (conn : Nat) (st1 : ServerState)
    (h1 : env.jsonLoads ticket = .ok qi)
    (h2 : (!truthy qi.query || !truthy qi.catalog_arn) = false)
    (h3 : _get_connection env st (qi.client_id.getD "default") = (.ok conn, st1)) :
    Event.attachAttempt conn (qi.catalog_arn.getD "") ∈
      (do_get env st ticket).2.2 ∧
    Event.execAttempt conn (qi.query.getD "") ∈ (do_get env st ticket).2.2 ∧
    (∀ e, env.attach conn (qi.catalog_arn.getD "") = some e →
       strContains e "already exists" = true →
       ∀ m, Event.warnAttach m ∉ (do_get env st ticket).2.2) ∧
    (∀ e, env.attach conn (qi.catalog_arn.getD "") = some e →
       strContains e "already exists" = false →
       Event.warnAttach ("Note about catalog attachment: " ++ e) ∈
         (do_get env st ticket).2.2) ∧
    ((∃ r, (do_get env st ticket).1 = .fromQuery r ∧
        env.exec conn (qi.query.getD "") = .ok r) ∨
     (∃ e, (do_get env st ticket).1 = .fromPydict e "Query execution failed" ∧
        env.exec conn (qi.query.getD "") = .error e)) := by
  cases ha : env.attach conn (qi.catalog_arn.getD "") with
  | none =>
    cases hx : env.exec conn (qi.query.getD "") with
    | error e =>
      refine ⟨?_, ?_, ?_, ?_, ?_⟩ <;>
        simp [do_get, do_get_core, h1, h2, h3, ha, hx]
    | ok r =>
      refine ⟨?_, ?_, ?_, ?_, ?_⟩ <;>
        simp [do_get, do_get_core, h1, h2, h3, ha, hx]
  | some e0 =>
    cases hck : strContains e0 "already exists" with
    | true =>
      cases hx : env.exec conn (qi.query.getD "") with
      | error e =>
        refine ⟨?_, ?_, ?_, ?_, ?_⟩ <;>
          simp [do_get, do_get_core, h1, h2, h3, ha, hck, hx]
      | ok r =>
        refine ⟨?_, ?_, ?_, ?_, ?_⟩ <;>
          simp [do_get, do_get_core, h1, h2, h3, ha, hck, hx]
    | false =>
      cases hx : env.exec conn (qi.query.getD "") with
      | error e =>
        refine ⟨?_, ?_, ?_, ?_, ?_⟩ <;>
          simp [do_get, do_get_core, h1, h2, h3, ha, hck, hx]
      | ok r =>
        refine ⟨?_, ?_, ?_, ?_, ?_⟩ <;>
          simp [do_get, do_get_core, h1, h2, h3, ha, hck, hx]

/-- C4 witness: under `envW` the attachment fails with "Network
unreachable"; the warning is logged and the query is still executed. -/
theorem C4_attach_policy_witness :
    Event.warnAttach "Note about catalog attachment: Network unreachable" ∈
      (do_get envW st0 [1]).2.2 ∧
    Event.execAttempt 0 "SELECT 1" ∈ (do_get envW st0 [1]).2.2 :=
  ⟨(C4_attach_policy envW st0 [1] qiOk 0
      { db_connections := [("c1", 0)], nextConn := 1 } (by rfl) (by decide)
      (by rfl)).2.2.2.1 "Network unreachable" (by rfl) (by decide),
   (C4_attach_policy envW st0 [1] qiOk 0
      { db_connections := [("c1", 0)], nextConn := 1 } (by rfl) (by decide)
      (by rfl)).2.1⟩

/-- C7 counterexample: with client "c1" registered, the first
`close_connection` action and a second identical action (run from the state
the first one left) both return the identical `["Connection closed"]`
result — the confirmation does not indicate whether an entry existed, so
the second call is not distinguishable from the first. -/
theorem C7_teardown_counterexample :
    (do_action envA stC1 "close_connection" [1]).1 = ["Connection closed"] ∧
    (do_action envA (do_action envA stC1 "close_connection" [1]).2
        "close_connection" [1]).1 = ["Connection closed"] ∧
    (do_action envA stC1 "close_connection" [1]).1 =
      (do_action envA (do_action envA stC1 "close_connection" [1]).2
        "close_connection" [1]).1 := by
  refine ⟨?_, ?_, ?_⟩ <;> decide

/-- C7 (amended): teardown of a client_id releases the engine handle and
removes the registry entry when one exists, and is an idempotent no-op when
none does; in both cases the action returns the same fixed
"Connection closed" confirmation — the result does not indicate whether an
entry existed. -/
theorem C7_teardown (env : PyEnv) (st : ServerState) (body : List Nat)
    (d : Payload) (h1 : env.jsonLoads body = .ok d) :
    (∀ conn,
       lookupConn st.db_connections (d.client_id.getD "default") = some conn →
       env.close conn = none →
       do_action env st "close_connection" body =
         (["Connection closed"],
          { st with db_connections :=
              removeKey st.db_connections (d.client_id.getD "default") })) ∧
    (lookupConn st.db_connections (d.client_id.getD "default") = none →
       do_action env st "close_connection" body =
         (["Connection closed"], st)) := by
  constructor
  · intro conn h2 h3
    simp [do_action, h1, h2, h3]
  · intro h2
    simp [do_action, h1, h2]

/-- C7 witness: tearing down the registered "c1" removes it; tearing it
down again from the resulting state is a no-op with the same result. -/
theorem C7_teardown_witness :
    do_action envA stC1 "close_connection" [1] =
      (["Connection closed"], { db_connections := [], nextConn := 1 }) ∧
    do_action envA { db_connections := [], nextConn := 1 }
        "close_connection" [1] =
      (["Connection closed"], { db_connections := [], nextConn := 1 }) :=
  ⟨(C7_teardown envA stC1 [1] qiOk (by rfl)).1 0 (by rfl) (by rfl),
   (C7_teardown envA { db_connections := [], nextConn := 1 } [1] qiOk
      (by rfl)).2 (by rfl)⟩

/-- C10: the handle is closed before the registry entry is deleted, so when
`close()` raises, the `del` is never reached: the state (hence the entry
for that client) is unchanged and the action returns an error-description
result instead of the confirmation. -/
theorem C10_close_failure (env : PyEnv) (st : ServerState) (body : List Nat)
    (d : Payload) (conn : Nat) (e : String)
    (h1 : env.jsonLoads body = .ok d)
    (h2 : lookupConn st.db_connections (d.client_id.getD "default") = some conn)
    (h3 : env.close conn = some e) :
    do_action env st "close_connection" body = (["Error: " ++ e], st) ∧
    lookupConn (do_action env st "close_connection" body).2.db_connections
      (d.client_id.getD "default") = some conn := by
  constructor
  · simp [do_action, h1, h2, h3]
  · simp [do_action, h1, h2, h3]

/-- C10 witness: under `envBadClose`, closing "c1" fails and its registry
entry survives. -/
theorem C10_close_failure_witness :
    do_action envBadClose stC1 "close_connection" [1] =
      (["Error: handle busy"], stC1) ∧
    lookupConn (do_action envBadClose stC1 "close_connection" [1]).2.db_connections
      "c1" = some 0 :=
  C10_close_failure envBadClose stC1 [1] qiOk 0 "handle busy" (by rfl)
    (by rfl) (by rfl)

end FlightServer
